import Mathlib

/-!
Verification of the easyconfig version/toolchain constraint engine.

Shallow embedding of `easybuild/framework/easyconfig/format/version.py`:
`EasyVersion` (a `distutils.version.LooseVersion`), `VersionOperator`
(version-expression grammar, predicate construction, ordered constraint
store), `ToolchainOperator` and `ConfigObjVersion`.

Python strings are modelled as Lean `String`/`List Char`; the components of
a parsed loose version are modelled by `VComp` (numeric components as `Nat`,
textual components as their byte sequences, `List Nat`).  Python 2 `cmp`
becomes an `Ordering`-valued comparator.  Fallible paths become `Except` /
`Option` values: the severity of each `self.log.error` call comes from
`easybuild.tools.build_log` which is not part of the available source, so
each error call site is given the severity the specification assigns to it
(absence for a failed standalone match, fatal for an unknown operator, for a
failed `add` and for a malformed `DEFAULT` section).
-/

namespace EasyVer

/-- One component of a parsed loose version: `distutils.version.LooseVersion`
splits a version string on the pattern `(\d+ | [a-z]+ | \.)`, converts digit
runs to integers and keeps everything else as strings (modelled as their
byte sequences). -/
inductive VComp where
  | num : Nat → VComp
  | str : List Nat → VComp
deriving DecidableEq

/-- A parsed loose version: the `version` component list of a
`LooseVersion`/`EasyVersion` instance. -/
abbrev Ver := List VComp

/-- Character classes of `LooseVersion.component_re`: a digit run, a
lowercase-letter run or a `.` is matched; every other character lands in an
unmatched segment between matches. -/
inductive CClass where
  | digit | lower | dot | other
deriving DecidableEq

/-- Class of a single character under `component_re = (\d+ | [a-z]+ | \.)`. -/
def charClass (c : Char) : CClass :=
  if c.isDigit then .digit
  else if 'a' ≤ c ∧ c ≤ 'z' then .lower
  else if c = '.' then .dot
  else .other

/-- Group a character list into maximal runs of equal `charClass`; this is
exactly the segmentation produced by `component_re.split` (matched digit
runs, matched letter runs, matched dots, and the unmatched segments in
between; empty segments are dropped by construction). -/
def groupRuns : List Char → List (CClass × List Char)
  | [] => []
  | c :: cs =>
    match groupRuns cs with
    | (cl, run) :: rest =>
      if charClass c = cl then (cl, c :: run) :: rest
      else (charClass c, [c]) :: (cl, run) :: rest
    | [] => [(charClass c, [c])]

/-- Value of a digit run, as `int()` computes it (leading zeros allowed). -/
def digitsToNat (l : List Char) : Nat :=
  l.foldl (fun acc c => acc * 10 + (c.toNat - 48)) 0

/-- Model of `LooseVersion.parse`: split on `component_re`, drop empty segments and
dots, convert digit runs with `int()`, keep other runs as strings (byte
sequences). -/
def looseParse (s : String) : Ver :=
  (groupRuns s.toList).filterMap fun p =>
    match p.1 with
    | .dot => none
    | .digit => some (.num (digitsToNat p.2))
    | _ => some (.str (p.2.map Char.toNat))

/-- Python 2 `cmp` on two naturals as an `Ordering`. -/
def natCmp (a b : Nat) : Ordering :=
  if a < b then .lt else if a = b then .eq else .gt

/-- Python 2 `cmp` on two lists, element comparison given by `f`: the first
non-equal position decides, a strict front segment compares as less. -/
def listLex (f : α → α → Ordering) : List α → List α → Ordering
  | [], [] => .eq
  | [], _ :: _ => .lt
  | _ :: _, [] => .gt
  | a :: as, b :: bs =>
    match f a b with
    | .eq => listLex f as bs
    | o => o

/-- Python 2 `cmp` on two version components: numbers compare numerically,
strings byte-lexicographically, and mixed types by type name, so every
number compares less than every string. -/
def compCmp : VComp → VComp → Ordering
  | .num a, .num b => natCmp a b
  | .num _, .str _ => .lt
  | .str _, .num _ => .gt
  | .str a, .str b => listLex natCmp a b

/-- Model of `LooseVersion.__cmp__`: Python 2 `cmp` of the two component lists. -/
def verCmp : Ver → Ver → Ordering := listLex compCmp

end EasyVer

namespace VersionOperator

open EasyVer

/-- Test for `[^_\W]` with Python 2 ASCII semantics: a word character (`[A-Za-z0-9_]`)
that is not the separator `_`. -/
def isWordNonSep (c : Char) : Bool :=
  c.isDigit || ('a' ≤ c && c ≤ 'z') || ('A' ≤ c && c ≤ 'Z')

/-- Test for `\s` of Python 2 `re`: space, tab, newline, vertical tab, form feed,
carriage return. -/
def isPySpace (c : Char) : Bool :=
  c = ' ' || c = '\t' || c = '\n' || c = '\x0b' || c = '\x0c' || c = '\r'

/-- Characters after the first of a candidate `ver_str` group: all but the
last must be `\S`, the last must be `[^_\W]`
(pattern `[^_\W](?:\S*[^_\W])?`, tail part). -/
def tailOk : List Char → Bool
  | [] => true
  | [d] => isWordNonSep d
  | d :: ds => !isPySpace d && tailOk ds

/-- Whether a character list is accepted by the `ver_str` group
`[^_\W](?:\S*[^_\W])?`: nonempty, first and last characters are word
characters other than `_`, interior characters are non-whitespace. -/
def validVer : List Char → Bool
  | [] => false
  | c :: cs => isWordNonSep c && tailOk cs

/-- Decompose a character list as `ver ++ '_' ++ op` for one of the six
operator symbols, longest symbol first.  Because the version regexp is
anchored and all operator characters are non-word characters, this is the
only way the optional `(?:_(?P<operator>...))?` group can consume input. -/
def opSuffix (l : List Char) : Option (List Char × List Char) :=
  match l.reverse with
  | '=' :: '=' :: '_' :: r => some (r.reverse, ['=', '='])
  | '=' :: '>' :: '_' :: r => some (r.reverse, ['>', '='])
  | '=' :: '<' :: '_' :: r => some (r.reverse, ['<', '='])
  | '=' :: '!' :: '_' :: r => some (r.reverse, ['!', '='])
  | '>' :: '_' :: r => some (r.reverse, ['>'])
  | '<' :: '_' :: r => some (r.reverse, ['<'])
  | _ => none

/-- Anchored match of `VersionOperator._operator_regexp()` against a text:
returns the `ver_str` and `operator` named groups on success.  The pattern is
`^(?P<ver_str>[^_\W](?:\S*[^_\W])?)(?:_(?P<operator>==|>|>=|<|<=|!=))?$`;
with the `$` anchor the operator group matches exactly when the text ends in
`_` followed by an operator symbol and the rest is a valid `ver_str`,
otherwise the whole text must be a valid `ver_str`. -/
def versionMatchRe (t : String) : Option (String × Option String) :=
  match opSuffix t.toList with
  | some (v, opc) =>
    if validVer v then some (String.mk v, some (String.mk opc)) else none
  | none =>
    if validVer t.toList then some (t, none) else none

/-- The `OPERATOR` class constant: maps each of the six symbols to its
relation on `EasyVersion` values (`operator.eq` and friends, which on
`LooseVersion` go through `__cmp__`).  Any other symbol is absent. -/
def OPERATOR : String → Option (Ver → Ver → Bool)
  | "==" => some fun a b => decide (verCmp a b = Ordering.eq)
  | ">" => some fun a b => decide (verCmp a b = Ordering.gt)
  | ">=" => some fun a b => decide (¬verCmp a b = Ordering.lt)
  | "<" => some fun a b => decide (verCmp a b = Ordering.lt)
  | "<=" => some fun a b => decide (¬verCmp a b = Ordering.gt)
  | "!=" => some fun a b => decide (¬verCmp a b = Ordering.eq)
  | _ => none

/-- Model of `VersionOperator._convert`: an undefined (`None`) version string is
replaced by the fallback `"0.0.0"` with a logged warning, then the string is
parsed as an `EasyVersion`.  The `except` branch around the constructor is
unreachable for string input (`LooseVersion.__init__` does not raise on
strings), so the conversion is total. -/
def convert (ver_str : Option String) : Ver :=
  looseParse (ver_str.getD "0.0.0")

/-- Model of `VersionOperator._operator_check(ver_str, operator)`: builds the check
closure `check(test_ver_str) = OPERATOR[operator](version, test_ver)` with
the constraint's own version as the first argument.  When the operator value
is not a key of `OPERATOR` (in particular when the regexp's operator group
did not participate and `None` was passed), `self.log.error` is reached;
the specification classifies this unknown-operator condition as fatal. -/
def operator_check (ver_str : Option String) (oper : Option String) :
    Except String (String → Bool) :=
  let version := convert ver_str
  match oper.bind OPERATOR with
  | some f => .ok fun test_ver_str => f version (convert (some test_ver_str))
  | none => .error "Failed to match specified operator to operator function"

/-- The dictionary returned by `VersionOperator.match` on success: the
`ver_str` key (overwritten with the full input text), the `operator` group,
the `check_fn` closure and the `easyversion` value. -/
structure MatchRes where
  ver_str : String
  operator : Option String
  check_fn : String → Bool
  easyversion : Ver

/-- Model of `VersionOperator.match`: search the anchored regexp; on no match, log
and return absence (`None`, as the specification prescribes for a failed
standalone match).  On a regexp match the `ver_str` entry of the group
dictionary is overwritten with the whole input text before `check_fn` and
`easyversion` are computed from it, and the operator group is passed to
`_operator_check` as-is via `**groupdict` (so an absent operator arrives as
`None`, not as the `'=='` default of the signature). -/
def version_match (t : String) : Except String (Option MatchRes) :=
  match versionMatchRe t with
  | none => .ok none
  | some (_, oper) =>
    match operator_check (some t) oper with
    | .error e => .error e
    | .ok check => .ok (some ⟨t, oper, check, convert (some t)⟩)

/-- Model of `VersionOperator.add(txt)` acting on the `self.versions` list: match the
text (failure is fatal to `add`, the `ConstraintParseError` of the
specification), then insert at `insert_idx`, which starts at `0` and becomes
the first index whose stored `easyversion` makes
`OPERATOR['<'](new_easyversion, stored_easyversion)` true. -/
def add (versions : List MatchRes) (txt : String) :
    Except String (List MatchRes) :=
  match version_match txt with
  | .error e => .error e
  | .ok none => .error ("version " ++ txt ++ " does not version_match")
  | .ok (some vd) =>
    let insert_idx :=
      (versions.findIdx? fun v =>
        decide (verCmp vd.easyversion v.easyversion = Ordering.lt)).getD 0
    .ok (versions.take insert_idx ++ vd :: versions.drop insert_idx)

/-- Fold `add` over a list of texts, aborting at the first failure. -/
def addAll (versions : List MatchRes) : List String →
    Except String (List MatchRes)
  | [] => .ok versions
  | t :: ts =>
    match add versions t with
    | .error e => .error e
    | .ok vs => addAll vs ts

/-- The successful result of `version_match`, if any. -/
def matchResult (t : String) : Option MatchRes :=
  match version_match t with
  | .ok (some r) => some r
  | _ => none

/-- The `operator` field of a successful match. -/
def matchedOperator (t : String) : Option (Option String) :=
  (matchResult t).map MatchRes.operator

/-- The `easyversion` field of a successful match. -/
def matchedVersion (t : String) : Option Ver :=
  (matchResult t).map MatchRes.easyversion

/-- State-passing form of `VersionOperator.match`: the method reads only
`self.regexp` (fixed at construction) and the input text, and assigns to no
attribute, so the `self.versions` store passes through unchanged and the
result does not depend on it. -/
def version_match_state (versions : List MatchRes) (t : String) :
    Except String (Option MatchRes) × List MatchRes :=
  (version_match t, versions)

end VersionOperator

namespace ToolchainOperator

/-- Attribute names assigned on a `ToolchainOperator` instance by
`__init__`: `self.log` and `self.regexp` (lines 186-187). -/
def initAttrs : List String := ["log", "regexp"]

/-- The attribute `toolchain_match` reads on line 213:
`self.toolchain_regexp.search(txt)`. -/
def matchRegexpAttr : String := "toolchain_regexp"

/-- Parameter names of `VersionOperator._operator_check` (line 118),
excluding `self`. -/
def operatorCheckParams : List String := ["ver_str", "operator"]

/-- Keyword argument names used in the call
`vop._operator_check(version=res['version'], oper=res['operator'])`
on line 225. -/
def checkCallKwargs : List String := ["version", "oper"]

/-- Named groups of the composed toolchain regexp (line 202): the outer
groups `toolchainname` and `toolchainversion` plus the embedded version
pattern's groups `ver_str` and `operator`.  These are the keys of the
group dictionary read by `toolchain_match`. -/
def groupdictKeys : List String :=
  ["toolchainname", "toolchainversion", "ver_str", "operator"]

/-- The key `toolchain_match` reads from the group dictionary on line 225:
`res['version']`. -/
def checkCallVersionKey : String := "version"

end ToolchainOperator

namespace ConfigObjVersion

open VersionOperator

/-- The fatal outcome of processing a malformed reserved `DEFAULT` section. -/
inductive CfgError where
  | defaultSectionError : String → CfgError
deriving DecidableEq

/-- Lookup of a key in a section's key/value mapping. -/
def getKey (sec : List (String × String)) (k : String) : Option String :=
  match sec with
  | [] => none
  | (k2, v) :: rest => if k2 = k then some v else getKey rest k

/-- Modelled from the spec: `ConfigObjVersion.add_version` is called by
`set_configobj` (lines 277 and 286) but is not defined in the available
source.  Per the specification it parses the text with the version grammar
(`VersionOperator`-style match); in the fatal mode used for the `DEFAULT`
section a parse failure aborts the resolution pass with
`DefaultSectionError`, while in the non-fatal mode (`error=False`) any
failure is suppressed and absence is returned. -/
def add_version (txt : String) (fatal : Bool) :
    Except CfgError (Option MatchRes) :=
  match version_match txt with
  | .ok (some r) => .ok (some r)
  | _ => if fatal then .error (.defaultSectionError txt) else .ok none

/-- Model of `ConfigObjVersion.set_configobj`, processing of a single section, with
the toolchain matcher abstracted as a parameter (toolchain matching depends
on the external `search_toolchain` registry, and
`ConfigObjVersion.toolchain_match`/`add_toolchain` are not defined in the
available source; per the specification both are non-fatal attempts outside
`DEFAULT` and fatal inside it).  The `DEFAULT` section's `version` key is
parsed fatally; its `toolchain` key must toolchain-match, else the error
logged on line 281 is fatal; any other section name is tried as a
toolchain, then as a version, with failures suppressed. -/
def processSection (tcmatch : String → Option String)
    (sec : String × List (String × String)) : Except CfgError Unit :=
  if sec.1 = "DEFAULT" then
    (match getKey sec.2 "version" with
     | some v => (add_version v true).map fun _ => ()
     | none => .ok ()) >>= fun _ =>
    match getKey sec.2 "toolchain" with
    | some t =>
      match tcmatch t with
      | some _ => .ok ()
      | none => .error (.defaultSectionError t)
    | none => .ok ()
  else
    match tcmatch sec.1 with
    | some _ => .ok ()
    | none => (add_version sec.1 false).map fun _ => ()

/-- Model of `ConfigObjVersion.set_configobj`: iterate over the sections of the
configuration tree in order, aborting at the first fatal outcome. -/
def set_configobj (tcmatch : String → Option String) :
    List (String × List (String × String)) → Except CfgError Unit
  | [] => .ok ()
  | sec :: rest =>
    processSection tcmatch sec >>= fun _ => set_configobj tcmatch rest

end ConfigObjVersion

namespace EasyVer

theorem natCmp_eq_iff (a b : Nat) : natCmp a b = .eq ↔ a = b := by
  unfold natCmp; split_ifs <;> simp <;> omega

theorem natCmp_swap (a b : Nat) : (natCmp a b).swap = natCmp b a := by
  unfold natCmp; split_ifs <;> simp [Ordering.swap] <;> omega

theorem natCmp_lt_trans {a b c : Nat} (h1 : natCmp a b = .lt)
    (h2 : natCmp b c = .lt) : natCmp a c = .lt := by
  unfold natCmp at *; split_ifs at * <;> simp_all <;> omega

theorem listLex_eq_iff (f : α → α → Ordering)
    (hf : ∀ a b, f a b = .eq ↔ a = b) :
    ∀ x y : List α, listLex f x y = .eq ↔ x = y := by
  intro x
  induction x with
  | nil => intro y; cases y <;> simp [listLex]
  | cons a as ih =>
    intro y
    cases y with
    | nil => simp [listLex]
    | cons b bs =>
      cases h : f a b with
      | eq =>
        have hab : a = b := (hf a b).mp h
        subst hab
        simp [listLex, h, ih]
      | lt =>
        simp only [listLex, h]
        constructor
        · intro hh; cases hh
        · intro hh
          cases hh
          rw [(hf a a).mpr rfl] at h
          cases h
      | gt =>
        simp only [listLex, h]
        constructor
        · intro hh; cases hh
        · intro hh
          cases hh
          rw [(hf a a).mpr rfl] at h
          cases h

theorem listLex_swap (f : α → α → Ordering)
    (hf : ∀ a b, (f a b).swap = f b a) :
    ∀ x y : List α, (listLex f x y).swap = listLex f y x := by
  intro x
  induction x with
  | nil => intro y; cases y <;> rfl
  | cons a as ih =>
    intro y
    cases y with
    | nil => rfl
    | cons b bs =>
      cases h : f a b with
      | eq =>
        have hba : f b a = .eq := by rw [← hf, h]; rfl
        simp [listLex, h, hba, ih]
      | lt =>
        have hba : f b a = .gt := by rw [← hf, h]; rfl
        simp [listLex, h, hba]
        rfl
      | gt =>
        have hba : f b a = .lt := by rw [← hf, h]; rfl
        simp [listLex, h, hba]
        rfl

theorem listLex_lt_trans (f : α → α → Ordering)
    (hfe : ∀ a b, f a b = .eq ↔ a = b)
    (hft : ∀ {a b c}, f a b = .lt → f b c = .lt → f a c = .lt) :
    ∀ {x y z : List α}, listLex f x y = .lt → listLex f y z = .lt →
      listLex f x z = .lt := by
  intro x
  induction x with
  | nil =>
    intro y z h1 h2
    cases y with
    | nil => cases h1
    | cons b bs =>
      cases z with
      | nil => cases h2
      | cons c cs => rfl
  | cons a as ih =>
    intro y z h1 h2
    cases y with
    | nil => cases h1
    | cons b bs =>
      cases z with
      | nil => cases h2
      | cons c cs =>
        simp only [listLex] at h1 h2 ⊢
        cases hab : f a b with
        | gt => rw [hab] at h1; cases h1
        | lt =>
          cases hbc : f b c with
          | lt => rw [hft hab hbc]
          | eq =>
            have : b = c := (hfe b c).mp hbc
            subst this
            rw [hab]
          | gt => rw [hbc] at h2; cases h2
        | eq =>
          have : a = b := (hfe a b).mp hab
          subst this
          rw [hab] at h1
          cases hbc : f a c with
          | lt => rfl
          | eq =>
            have : a = c := (hfe a c).mp hbc
            subst this
            rw [hbc] at h2
            exact ih h1 h2
          | gt => rw [hbc] at h2; cases h2

end EasyVer

namespace EasyVer

theorem compCmp_eq_iff (a b : VComp) : compCmp a b = .eq ↔ a = b := by
  cases a <;> cases b <;>
    simp [compCmp, natCmp_eq_iff, listLex_eq_iff natCmp natCmp_eq_iff]

theorem compCmp_swap (a b : VComp) : (compCmp a b).swap = compCmp b a := by
  cases a <;> cases b
  · exact natCmp_swap _ _
  · rfl
  · rfl
  · exact listLex_swap natCmp natCmp_swap _ _

theorem compCmp_lt_trans {a b c : VComp} (h1 : compCmp a b = .lt)
    (h2 : compCmp b c = .lt) : compCmp a c = .lt := by
  cases a <;> cases b <;> cases c <;> simp_all [compCmp]
  · exact natCmp_lt_trans h1 h2
  · exact listLex_lt_trans natCmp natCmp_eq_iff
      (fun ha hb => natCmp_lt_trans ha hb) h1 h2

theorem verCmp_eq_iff (a b : Ver) : verCmp a b = .eq ↔ a = b :=
  listLex_eq_iff compCmp compCmp_eq_iff a b

theorem verCmp_swap (a b : Ver) : (verCmp a b).swap = verCmp b a :=
  listLex_swap compCmp compCmp_swap a b

theorem verCmp_lt_trans {a b c : Ver} (h1 : verCmp a b = .lt)
    (h2 : verCmp b c = .lt) : verCmp a c = .lt :=
  listLex_lt_trans compCmp compCmp_eq_iff
    (fun ha hb => compCmp_lt_trans ha hb) h1 h2

theorem verCmp_self_append {a b : Ver} (h : b ≠ []) :
    verCmp a (a ++ b) = .lt := by
  induction a with
  | nil =>
    cases b with
    | nil => cases h rfl
    | cons c cs => rfl
  | cons x xs ih =>
    show listLex compCmp (x :: xs) (x :: (xs ++ b)) = .lt
    simp only [listLex]
    rw [show compCmp x x = Ordering.eq from (compCmp_eq_iff x x).mpr rfl]
    exact ih

end EasyVer

namespace VersionOperator

open EasyVer

theorem operator_check_some_eq (vs : Option String) (s : String) :
    operator_check vs (some s)
      = match OPERATOR s with
        | some f =>
          .ok fun test_ver_str => f (convert vs) (convert (some test_ver_str))
        | none =>
          .error "Failed to match specified operator to operator function" :=
  rfl

theorem version_match_eq_of_re {t v : String} {oper : Option String}
    (h : versionMatchRe t = some (v, oper)) :
    version_match t
      = match operator_check (some t) oper with
        | .error e => .error e
        | .ok check => .ok (some ⟨t, oper, check, convert (some t)⟩) := by
  unfold version_match
  rw [h]

/-- C1: the predicate built by `_operator_check` always places the
constraint's own version value first: for any stored version text and any
operator symbol, the check applied to a candidate string computes
`OPERATOR[symbol](constraint_version, candidate_version)`; in particular
for `>` the check on candidate `c` evaluates `constraint_version > c`, so
the constraint `"5_>"` accepts the smaller candidate `"4"` and rejects the
larger candidate `"6"`. -/
theorem operator_check_constraint_version_first :
    (∀ vs c : String,
      (operator_check (some vs) (some ">")).toOption.map (fun ch => ch c)
        = some (decide (verCmp (looseParse vs) (looseParse c) = Ordering.gt)))
    ∧ (∀ vs oper c : String,
      (operator_check (some vs) (some oper)).toOption.map (fun ch => ch c)
        = (OPERATOR oper).map fun rel =>
            rel (convert (some vs)) (convert (some c)))
    ∧ (matchResult "5_>").map (fun r => r.check_fn "6") = some false
    ∧ (matchResult "5_>").map (fun r => r.check_fn "4") = some true := by
  refine ⟨fun vs c => rfl, ?_, rfl, rfl⟩
  intro vs oper c
  rw [operator_check_some_eq]
  cases h : OPERATOR oper <;> rfl

/-- C3: matching the suffix-free expression `"1.2.3"` does not produce the
default `'=='` operator.  The regexp itself matches with an absent operator
group, but `match` forwards that absent (`None`) operator to
`_operator_check` via `**groupdict`, defeating the `'=='` default of the
signature, and the unknown-operator error path is taken instead of any
result carrying `'=='`. -/
theorem version_match_bare_version_unknown_operator :
    version_match "1.2.3"
      = .error "Failed to match specified operator to operator function"
    ∧ versionMatchRe "1.2.3" = some ("1.2.3", none) := ⟨rfl, rfl⟩

/-- C6: each of the six operator symbols round-trips through a match of
`"5.0_<OP>"`: the match succeeds and its operator field is exactly the
symbol that was written. -/
theorem operator_symbol_roundtrip :
    matchedOperator "5.0_==" = some (some "==")
    ∧ matchedOperator "5.0_>" = some (some ">")
    ∧ matchedOperator "5.0_>=" = some (some ">=")
    ∧ matchedOperator "5.0_<" = some (some "<")
    ∧ matchedOperator "5.0_<=" = some (some "<=")
    ∧ matchedOperator "5.0_!=" = some (some "!=") :=
  ⟨rfl, rfl, rfl, rfl, rfl, rfl⟩

/-- C8: converting an undefined (`None`) version value substitutes the
fallback `"0.0.0"` and returns its parsed value `[0, 0, 0]`; conversion of
a defined string is a total function of that string (no exception path is
reachable), so conversion never fails. -/
theorem convert_undefined_fallback :
    convert none = looseParse "0.0.0"
    ∧ looseParse "0.0.0" = [.num 0, .num 0, .num 0]
    ∧ (∀ s : String, convert (some s) = looseParse s) :=
  ⟨rfl, by decide, fun s => rfl⟩

/-- C9: the match operation is pure and idempotent: it leaves the
`self.versions` store untouched, its result does not depend on the store's
contents, and a second call on the same text (after the first) returns the
same result. -/
theorem version_match_pure_and_idempotent :
    ∀ (vs vs2 : List MatchRes) (t : String),
      (version_match_state vs t).2 = vs
      ∧ (version_match_state vs t).1 = (version_match_state vs2 t).1
      ∧ (version_match_state ((version_match_state vs t).2) t).1
          = (version_match_state vs t).1 :=
  fun _ _ _ => ⟨rfl, rfl, rfl⟩

/-- C10: every `easyversion` produced by `match` is the conversion of the
entire input text (the `ver_str` group is overwritten with the full text
first); the regexp's version token equals the whole text exactly when no
operator suffix is present; concretely the match of `"5.0_>="` stores the
conversion of `"5.0_>="` (suffix included), which differs from the
conversion of the bare token `"5.0"`, and the predicate of `"5.0_=="`
closes over the suffix-carrying version, so it rejects the candidate
`"5.0"`. -/
theorem easyversion_built_from_entire_text :
    (∀ t : String, (matchedVersion t).getD (looseParse t) = looseParse t)
    ∧ (∀ t v : String, versionMatchRe t = some (v, none) → v = t)
    ∧ matchedVersion "5.0_>=" = some (looseParse "5.0_>=")
    ∧ looseParse "5.0_>=" ≠ looseParse "5.0"
    ∧ (matchResult "5.0_==").map (fun r => r.check_fn "5.0") = some false := by
  refine ⟨?_, ?_, rfl, by decide, rfl⟩
  · intro t
    cases h : versionMatchRe t with
    | none =>
      unfold matchedVersion matchResult version_match
      rw [h]
      rfl
    | some p =>
      obtain ⟨v, oper⟩ := p
      unfold matchedVersion matchResult
      rw [version_match_eq_of_re h]
      cases h2 : operator_check (some t) oper <;> rfl
  · intro t v h
    unfold versionMatchRe at h
    cases hs : opSuffix t.toList with
    | none =>
      simp only [hs] at h
      by_cases hv : validVer t.toList = true
      · rw [if_pos hv] at h
        injection h with h1
        injection h1 with h2 h3
        exact h2.symm
      · rw [if_neg hv] at h
        cases h
    | some p =>
      obtain ⟨vv, opc⟩ := p
      simp only [hs] at h
      by_cases hv : validVer vv = true
      · rw [if_pos hv] at h
        injection h with h1
        injection h1 with h2 h3
        cases h3
      · rw [if_neg hv] at h
        cases h

/-- Witness for C10: the hypothesis of the second part is discharged at the
concrete suffix-free input `"5.0"`, whose regexp match returns the whole
text as its version token. -/
theorem easyversion_built_from_entire_text_witness : ("5.0" : String) = "5.0" :=
  easyversion_built_from_entire_text.2.1 "5.0" "5.0" rfl

/-- C2: the store does not satisfy the claimed descending invariant.
Adding the suffix-free texts `"1.0"`, `"3.0"`, `"2.0"` never reaches the
insertion logic at all (each match aborts in the unknown-operator path, so
the claimed result `["3.0", "2.0", "1.0"]` is unreachable), and on texts
that do match, the insertion scan — which contrary to the method's own
docstring inserts before the first stored entry GREATER than the new one,
with default index 0 — produces `["2.0_==", "3.0_==", "1.0_=="]` instead of
the descending `["3.0_==", "2.0_==", "1.0_=="]`. -/
theorem add_insertion_at_claimed_inputs :
    addAll [] ["1.0", "3.0", "2.0"]
      = .error "Failed to match specified operator to operator function"
    ∧ (addAll [] ["1.0_==", "3.0_==", "2.0_=="]).map
        (fun l => l.map MatchRes.ver_str)
      = .ok ["2.0_==", "3.0_==", "1.0_=="] := ⟨rfl, rfl⟩

end VersionOperator

namespace EasyVer

/-- C7: the loose-version comparison is a total order: every comparison
yields exactly one of less/equal/greater, it is antisymmetric (swapping the
arguments swaps the ordering, and equality of the comparison coincides with
equality of the parsed values) and transitive; the sample chain
`"1.2.3" < "1.2.4" < "1.3" < "2.0"` holds, as does
`"1.2" < "1.2.0.1"`, and in general a version whose token sequence is a
strict front segment of another compares as less than the longer one. -/
theorem verCmp_total_order_and_samples :
    (∀ a b : Ver, verCmp a b = .lt ∨ verCmp a b = .eq ∨ verCmp a b = .gt)
    ∧ (∀ a b : Ver, verCmp a b = .eq ↔ a = b)
    ∧ (∀ a b : Ver, (verCmp a b).swap = verCmp b a)
    ∧ (∀ a b c : Ver, verCmp a b = .lt → verCmp b c = .lt → verCmp a c = .lt)
    ∧ verCmp (looseParse "1.2.3") (looseParse "1.2.4") = .lt
    ∧ verCmp (looseParse "1.2.4") (looseParse "1.3") = .lt
    ∧ verCmp (looseParse "1.3") (looseParse "2.0") = .lt
    ∧ verCmp (looseParse "1.2") (looseParse "1.2.0.1") = .lt
    ∧ (∀ a b : Ver, b ≠ [] → verCmp a (a ++ b) = .lt) := by
  refine ⟨?_, verCmp_eq_iff, verCmp_swap,
    fun a b c h1 h2 => verCmp_lt_trans h1 h2,
    by decide, by decide, by decide, by decide,
    fun a b h => verCmp_self_append h⟩
  intro a b
  cases verCmp a b
  · exact Or.inl rfl
  · exact Or.inr (Or.inl rfl)
  · exact Or.inr (Or.inr rfl)

/-- Witness for C7: transitivity applied to the concrete parsed versions of
`"1.2.3"`, `"1.2.4"`, `"1.3"`, and the front-segment rule applied to the
parsed `"1.2"` extended by two numeric components. -/
theorem verCmp_total_order_and_samples_witness :
    verCmp (looseParse "1.2.3") (looseParse "1.3") = .lt
    ∧ verCmp (looseParse "1.2")
        (looseParse "1.2" ++ [VComp.num 0, VComp.num 1]) = .lt :=
  ⟨verCmp_total_order_and_samples.2.2.2.1 (looseParse "1.2.3")
      (looseParse "1.2.4") (looseParse "1.3") (by decide) (by decide),
   verCmp_total_order_and_samples.2.2.2.2.2.2.2.2 (looseParse "1.2")
      [VComp.num 0, VComp.num 1] (by decide)⟩

end EasyVer

namespace ConfigObjVersion

/-- C5: a configuration tree whose `DEFAULT` section declares
`version = "not_a_version_!!"` (a text the version grammar rejects) aborts
the whole resolution pass with `DefaultSectionError`, whatever the
toolchain matcher and whatever sections follow; it never continues past the
malformed declaration. -/
theorem default_section_malformed_version_fatal :
    ∀ (tcmatch : String → Option String)
      (rest : List (String × List (String × String))),
      set_configobj tcmatch
          (("DEFAULT", [("version", "not_a_version_!!")]) :: rest)
        = .error (.defaultSectionError "not_a_version_!!") := by
  intro tcmatch rest
  rfl

end ConfigObjVersion

namespace ToolchainOperator

/-- C4: `toolchain_match` cannot succeed on any input: it reads the
attribute `toolchain_regexp`, which `__init__` never assigns (it assigns
`regexp`), so every call fails with an attribute lookup error; moreover the
version-suffix path calls `_operator_check` with the keyword arguments
`version` and `oper`, neither of which is a parameter of that method, and
reads the group-dictionary key `version`, which is not among the named
groups of the composed toolchain pattern. -/
theorem toolchain_match_undefined_attribute_and_kwargs :
    matchRegexpAttr ∉ initAttrs
    ∧ ("version" ∈ checkCallKwargs ∧ "version" ∉ operatorCheckParams)
    ∧ ("oper" ∈ checkCallKwargs ∧ "oper" ∉ operatorCheckParams)
    ∧ checkCallVersionKey ∉ groupdictKeys := by decide

end ToolchainOperator
